import Mathlib

/-!
Verification of the Nubo-Mail application shell
(`src/apps/tauri/src-tauri/src/lib.rs`).

The single source file defines `run`, which builds a Tauri application:
a `setup` closure parses a hard-coded URL, creates one webview window
(with size/chrome customization under `#[cfg(desktop)]`, bare under
`#[cfg(mobile)]`), optionally sets an overlay title bar under
`#[cfg(target_os = "macos")]`, and then `.run(...)` enters the host
event loop, with `.expect("error while running tauri application")`
turning a setup error into a process panic.

We embed this as a trace-producing function over the compile-time
platform and over booleans modelling the fallible host-toolkit calls
(`WebviewWindowBuilder::build` and `set_title_bar_style`).
-/

namespace Nubo

/-- The compile-time platforms distinguished by the `cfg` attributes in
`lib.rs`: `cfg(desktop)`, `cfg(mobile)`, `cfg(target_os = "macos")`. -/
inductive Platform
  | macos
  | windows
  | linux
  | android
  | ios
deriving DecidableEq

/-- `#[cfg(desktop)]` holds on macOS, Windows and Linux. -/
def Platform.isDesktop : Platform → Bool
  | .macos => true
  | .windows => true
  | .linux => true
  | .android => false
  | .ios => false

/-- `#[cfg(mobile)]` holds exactly when `cfg(desktop)` does not. -/
def Platform.isMobile (p : Platform) : Bool := !p.isDesktop

/-- `tauri::TitleBarStyle` (the variants relevant to this code). -/
inductive TitleBarStyle
  | Visible
  | Transparent
  | Overlay
deriving DecidableEq

/-- A parsed URL, as produced by the `url` crate's `parse` used on
line 8 of `lib.rs` (`"https://nubo.email/login".parse()`). -/
structure Url where
  scheme : String
  host : String
  path : String
  query : Option String
  fragment : Option String
deriving DecidableEq

/-- Split a character list at the first occurrence of `sep`:
`some (before, after)` when `sep` occurs, `none` otherwise. -/
def splitFirst (sep : Char) : List Char → Option (List Char × List Char)
  | [] => none
  | c :: cs =>
    if c = sep then some ([], cs)
    else match splitFirst sep cs with
      | none => none
      | some (l, r) => some (c :: l, r)

/-- Split a character list at the first occurrence of `sep`, returning
the part before it and, optionally, the part after it. -/
def splitOpt (sep : Char) (cs : List Char) : List Char × Option (List Char) :=
  match splitFirst sep cs with
  | none => (cs, none)
  | some (l, r) => (l, some r)

/-- Model of the `url` crate's `Url::parse` for absolute
`scheme://host/path?query#fragment` URLs (the only shape this program
feeds it): the scheme must be a nonempty alphabetic-led token followed
by `://`, and the host must be nonempty.  A stricter domain than the
real crate accepts, but agreeing with it on such URLs. -/
def parseUrl (s : String) : Option Url :=
  match splitFirst ':' s.toList with
  | none => none
  | some (schemeCs, rest) =>
    match schemeCs with
    | [] => none
    | c0 :: _ =>
      if !c0.isAlpha then none
      else if !schemeCs.all (fun c => c.isAlphanum || c = '+' || c = '-' || c = '.') then none
      else match rest with
        | '/' :: '/' :: rest2 =>
          let (beforeFrag, frag) := splitOpt '#' rest2
          let (beforeQuery, query) := splitOpt '?' beforeFrag
          let (host, pathOpt) := splitOpt '/' beforeQuery
          if host.isEmpty then none
          else
            some { scheme := String.mk schemeCs
                   host := String.mk host
                   path := match pathOpt with
                     | none => "/"
                     | some p => String.mk ('/' :: p)
                   query := query.map String.mk
                   fragment := frag.map String.mk }
        | _ => none

/-- The hard-coded URL string on line 8 of `lib.rs`. -/
def nuboUrl : String := "https://nubo.email/login"

/-- The configuration accumulated by a `WebviewWindowBuilder` chain:
`WebviewWindowBuilder::new(app, label, url)` followed by optional
setters.  A field is `none` when the corresponding setter was never
called, so the toolkit default applies. -/
structure WindowConfig where
  label : String
  url : String
  title : Option String := none
  innerSize : Option (Nat × Nat) := none
  minInnerSize : Option (Nat × Nat) := none
  resizable : Option Bool := none
  fullscreen : Option Bool := none
  decorations : Option Bool := none
  visible : Option Bool := none
deriving DecidableEq

/-- `WebviewWindowBuilder::new(app, "main", url)` with the desktop
setter chain of lines 12–19 of `lib.rs`. -/
def desktopWindowConfig : WindowConfig :=
  { label := "main"
    url := nuboUrl
    title := some "Nubo"
    innerSize := some (1400, 900)
    minInnerSize := some (800, 600)
    resizable := some true
    fullscreen := some false
    decorations := some true
    visible := some true }

/-- `WebviewWindowBuilder::new(app, "main", url).build()` of the
mobile branch (lines 35–36 of `lib.rs`): no setters at all. -/
def mobileWindowConfig : WindowConfig :=
  { label := "main", url := nuboUrl }

/-- Observable calls the setup closure makes against the host toolkit,
in order. -/
inductive Event
  | resolveUrl (s : String)
  | createWindow (cfg : WindowConfig)
  | setTitleBarStyle (label : String) (style : TitleBarStyle)
deriving DecidableEq

/-- How the process ends up after `run`: either panicking with a
message (having already emitted some toolkit calls), or handing
control to the host runtime's event loop after the recorded calls. -/
inductive Outcome
  | panic (msg : String) (events : List Event)
  | eventLoop (events : List Event)
deriving DecidableEq

/-- The fixed message of the `.expect(...)` on line 42 of `lib.rs`. -/
def expectMsg : String := "error while running tauri application"

/-- The runtime message of `Result::unwrap` on `Err` (line 8's
`.parse().unwrap()`). -/
def unwrapPanicMsg : String := "called Result::unwrap() on an Err value"

/-- Embedding of `run` (lines 4–43 of `lib.rs`).

`args` and `env` model the process command line and environment: the
source reads neither, so they are parameters the body never consults.
`p` is the compile-time platform.  `buildOk` models whether
`WebviewWindowBuilder::build` succeeds (its error propagates via `?`
out of setup, and `.expect` on `.run`'s result panics).  `tbsOk`
models whether `set_title_bar_style` succeeds; line 26 discards that
result with `let _ =`. -/
def run (args : List String) (env : List (String × String))
    (p : Platform) (buildOk : Bool) (tbsOk : Bool) : Outcome :=
  match parseUrl nuboUrl with
  | none => .panic unwrapPanicMsg []
  | some _ =>
    if p.isDesktop then
      if buildOk then
        if p = .macos then
          .eventLoop [.resolveUrl nuboUrl,
                      .createWindow desktopWindowConfig,
                      .setTitleBarStyle "main" .Overlay]
        else
          .eventLoop [.resolveUrl nuboUrl,
                      .createWindow desktopWindowConfig]
      else
        .panic expectMsg [.resolveUrl nuboUrl]
    else
      if buildOk then
        .eventLoop [.resolveUrl nuboUrl, .createWindow mobileWindowConfig]
      else
        .panic expectMsg [.resolveUrl nuboUrl]

/-- The toolkit calls recorded in an outcome. -/
def Outcome.events : Outcome → List Event
  | .panic _ evs => evs
  | .eventLoop evs => evs

/-- Whether the outcome is handing control to the host event loop. -/
def Outcome.isEventLoop : Outcome → Bool
  | .panic _ _ => false
  | .eventLoop _ => true

/-- The panic message of an outcome, when it panicked. -/
def Outcome.panicMsg : Outcome → Option String
  | .panic msg _ => some msg
  | .eventLoop _ => none

/-- The configurations of the windows created in a trace, in order. -/
def windowConfigs (evs : List Event) : List WindowConfig :=
  evs.filterMap fun
    | .createWindow cfg => some cfg
    | _ => none

/-- The labels of the windows created in a trace, in order. -/
def windowLabels (evs : List Event) : List String :=
  (windowConfigs evs).map WindowConfig.label

/-- The URLs loaded into created windows, in order. -/
def loadedUrls (evs : List Event) : List String :=
  (windowConfigs evs).map WindowConfig.url

/-- The title-bar styles requested in a trace, in order. -/
def titleBarCalls (evs : List Event) : List TitleBarStyle :=
  evs.filterMap fun
    | .setTitleBarStyle _ style => some style
    | _ => none

end Nubo

namespace Nubo

/-- C1: For the desktop build, the single window created at startup is
configured with title "Nubo", initial inner size 1400×900, minimum
inner size 800×600, and flags resizable, decorated, visible all true
and fullscreen false. -/
theorem desktop_window_configuration
    (args : List String) (env : List (String × String))
    (p : Platform) (tbsOk : Bool) (hd : p.isDesktop = true) :
    ∃ cfg, windowConfigs (run args env p true tbsOk).events = [cfg] ∧
      cfg.title = some "Nubo" ∧
      cfg.innerSize = some (1400, 900) ∧
      cfg.minInnerSize = some (800, 600) ∧
      cfg.resizable = some true ∧
      cfg.decorations = some true ∧
      cfg.visible = some true ∧
      cfg.fullscreen = some false := by
  refine ⟨desktopWindowConfig, ?_, rfl, rfl, rfl, rfl, rfl, rfl, rfl⟩
  cases p <;> first | rfl | exact absurd hd (by decide)

/-- Witness for C1 at the Linux platform. -/
theorem desktop_window_configuration_witness :
    ∃ cfg,
      windowConfigs (run [] [] Platform.linux true true).events = [cfg] ∧
      cfg.title = some "Nubo" ∧
      cfg.innerSize = some (1400, 900) ∧
      cfg.minInnerSize = some (800, 600) ∧
      cfg.resizable = some true ∧
      cfg.decorations = some true ∧
      cfg.visible = some true ∧
      cfg.fullscreen = some false :=
  desktop_window_configuration [] [] Platform.linux true rfl

/-- C2: The URL loaded into the webview is exactly one of the two
literal strings, with no query parameters or fragment; on every
platform the successful run loads exactly that URL, and a failed build
loads nothing. -/
theorem loaded_url_literal :
    (nuboUrl = "https://nubo.email/login" ∨
      nuboUrl = "https://nubo.email/mail/inbox") ∧
    (∃ u, parseUrl nuboUrl = some u ∧ u.query = none ∧ u.fragment = none) ∧
    ∀ args env p buildOk tbsOk,
      loadedUrls (run args env p buildOk tbsOk).events =
        if buildOk then [nuboUrl] else [] := by
  refine ⟨Or.inl rfl, ⟨⟨"https", "nubo.email", "/login", none, none⟩,
    by decide, rfl, rfl⟩, ?_⟩
  intro args env p buildOk tbsOk
  cases p <;> cases buildOk <;> rfl

/-- C3: If window construction fails, the process panics with the
fixed message from `.expect`, the event loop is never entered, and the
trace shows no retry, fallback URL load, or degraded mode: the only
call before the abort is the URL resolution. -/
theorem build_failure_aborts :
    ∀ args env p tbsOk,
      run args env p false tbsOk = .panic expectMsg [.resolveUrl nuboUrl] ∧
      (run args env p false tbsOk).isEventLoop = false := by
  intro args env p tbsOk
  cases p <;> exact ⟨rfl, rfl⟩

/-- C4: On macOS only, after window creation the title-bar style is
set to the overlay mode; on every other platform no title-bar-style
call occurs in the trace. -/
theorem titlebar_macos_only :
    ∀ args env p tbsOk,
      titleBarCalls (run args env p true tbsOk).events =
        if p = Platform.macos then [TitleBarStyle.Overlay] else [] := by
  intro args env p tbsOk
  cases p <;> rfl

/-- C5: The mobile build creates the window with none of the
size/chrome customizations (every optional builder field is unset)
while loading the same URL as the desktop build. -/
theorem mobile_window_bare
    (args : List String) (env : List (String × String))
    (p : Platform) (tbsOk : Bool) (hm : p.isMobile = true) :
    ∃ cfg, windowConfigs (run args env p true tbsOk).events = [cfg] ∧
      cfg.title = none ∧
      cfg.innerSize = none ∧
      cfg.minInnerSize = none ∧
      cfg.resizable = none ∧
      cfg.fullscreen = none ∧
      cfg.decorations = none ∧
      cfg.visible = none ∧
      cfg.url = desktopWindowConfig.url := by
  refine ⟨mobileWindowConfig, ?_, rfl, rfl, rfl, rfl, rfl, rfl, rfl, rfl⟩
  cases p <;> first | rfl | exact absurd hm (by decide)

/-- Witness for C5 at the Android platform. -/
theorem mobile_window_bare_witness :
    ∃ cfg,
      windowConfigs (run [] [] Platform.android true true).events = [cfg] ∧
      cfg.title = none ∧
      cfg.innerSize = none ∧
      cfg.minInnerSize = none ∧
      cfg.resizable = none ∧
      cfg.fullscreen = none ∧
      cfg.decorations = none ∧
      cfg.visible = none ∧
      cfg.url = desktopWindowConfig.url :=
  mobile_window_bare [] [] Platform.android true rfl

/-- C6: On every platform a successful start creates exactly one
window, labelled "main", and then yields control to the host event
loop. -/
theorem one_main_window_then_event_loop :
    ∀ args env p tbsOk,
      windowLabels (run args env p true tbsOk).events = ["main"] ∧
      (run args env p true tbsOk).isEventLoop = true := by
  intro args env p tbsOk
  cases p <;> exact ⟨rfl, rfl⟩

/-- C7: On every platform the startup steps happen in a fixed order:
resolve the static URL, create the window, then (on macOS only)
request the overlay title bar, and finally hand control to the event
loop. -/
theorem startup_order :
    ∀ args env p tbsOk,
      run args env p true tbsOk =
        .eventLoop ([Event.resolveUrl nuboUrl,
          Event.createWindow
            (if p.isDesktop then desktopWindowConfig else mobileWindowConfig)] ++
          (if p = Platform.macos
            then [Event.setTitleBarStyle "main" TitleBarStyle.Overlay]
            else [])) := by
  intro args env p tbsOk
  cases p <;> rfl

/-- C8: The startup routine consults no input: for any two runs with
any command-line arguments and environments, the outcome (window
configuration, loaded URL, trace) is the same. -/
theorem run_ignores_inputs :
    ∀ args env args' env' p buildOk tbsOk,
      run args env p buildOk tbsOk = run args' env' p buildOk tbsOk := by
  intro args env args' env' p buildOk tbsOk
  rfl

/-- C9: Parsing the hard-coded URL string always succeeds, so the
`unwrap` on the parse result never panics: the only panic any run can
produce is the build-failure `.expect` panic, never the unwrap one. -/
theorem url_parse_never_panics :
    (parseUrl nuboUrl).isSome = true ∧
    ∀ args env p buildOk tbsOk,
      (run args env p buildOk tbsOk).panicMsg =
        if buildOk then none else some expectMsg := by
  refine ⟨by decide, ?_⟩
  intro args env p buildOk tbsOk
  cases p <;> cases buildOk <;> rfl

/-- C10: On macOS a failure of `set_title_bar_style` is discarded: the
run reaches the event loop identically whether the call succeeds or
fails, and the already-built window configuration in the trace is
unchanged. -/
theorem titlebar_failure_discarded :
    ∀ args env tbsOk tbsOk',
      run args env Platform.macos true tbsOk =
        run args env Platform.macos true tbsOk' ∧
      (run args env Platform.macos true tbsOk).isEventLoop = true ∧
      windowConfigs (run args env Platform.macos true tbsOk).events =
        [desktopWindowConfig] := by
  intro args env tbsOk tbsOk'
  exact ⟨rfl, rfl, rfl⟩

end Nubo
